import Mathlib

/-!
Shallow embedding of the session-registry / login-throttle core of
`src/pkg/auth/auth.go` and of the shopping-cart handlers of
`src/unnamed/part_001`, together with proofs of the spec's claims.

Modelling conventions:
* Go `time.Time` values are integers (seconds); `time.Hour * 120` is
  `120 * 3600`, `time.Second * d` is `d`.
* Go maps are total functions into `Option` (a missing key is `none`);
  `map[string][]struct{}` is used by the source only through `len`, so the
  `tries` map is modelled as `String → Nat` with a missing key being `0`.
* HTTP cookies, JWT minting and the SQL database are external collaborators;
  the database lookup and the bcrypt comparison are parameters (`LoginEnv`).
-/

namespace Palo

/-- `userData` from auth.go: the value stored per session token
(`email string`, `lastSeen time.Time`). -/
structure UserData where
  email : String
  lastSeen : Int
deriving DecidableEq, Repr

/-- The mutable fields of `session` from auth.go that the claims concern:
`store map[string]userData`, `cleaned time.Time`,
`tries map[string][]struct{}` (kept as its length), `delay map[string]time.Time`
(`none` models Go's zero `time.Time`, i.e. a missing key). -/
structure SessionState where
  store : String → Option UserData
  cleaned : Int
  tries : String → Nat
  delay : String → Option Int

/-- `NewSession` from auth.go: empty maps (the `cleaned = time.Now()` start
time is taken as 0). -/
def newSession : SessionState :=
  { store := fun _ => none, cleaned := 0, tries := fun _ => 0, delay := fun _ => none }

/-- The fixed backoff unit: auth.go multiplies the failure count by 2 seconds
(`d := (len(s.tries[email]) * 2)`, `time.Second * time.Duration(d)`). -/
def unitDelay : Int := 2

/-- The throttle gate at the top of `Login` (auth.go lines 92–94):
the attempt is allowed unless `!s.delay[email].IsZero() &&
s.delay[email].Sub(time.Now()) > 0`. -/
def checkAllowed (st : SessionState) (email : String) (now : Int) : Bool :=
  match st.delay email with
  | none => true
  | some d => decide (d - now ≤ 0)

/-- `loginDelay` from auth.go: appends to `s.tries[email]` and sets
`s.delay[email] = time.Now().Add(time.Second * time.Duration(len * 2))`. -/
def loginDelay (st : SessionState) (email : String) (now : Int) : SessionState :=
  { st with
    tries := fun e => if e = email then st.tries email + 1 else st.tries e,
    delay := fun e =>
      if e = email then some (now + unitDelay * (st.tries email + 1)) else st.delay e }

/-- `recordFailure` called once per element of `ts` (the failure times),
with no intervening reset: folds `loginDelay` over the times. -/
def recordFailures (st : SessionState) (email : String) (ts : List Int) : SessionState :=
  ts.foldl (fun s t => loginDelay s email t) st

/-- `Clean` from auth.go, generalised over the idle limit: deletes every
entry with `time.Now().Sub(value.lastSeen) > maxIdle` and stamps `cleaned`.
(Deleting the ranged key inside the loop is equivalent to this filter.) -/
def sweepExpired (st : SessionState) (now maxIdle : Int) : SessionState :=
  { st with
    store := fun k =>
      match st.store k with
      | none => none
      | some u => if now - u.lastSeen > maxIdle then none else some u,
    cleaned := now }

/-- `Clean` from auth.go with its hard-coded limit `time.Hour * 120`. -/
def Clean (st : SessionState) (now : Int) : SessionState :=
  sweepExpired st now (120 * 3600)

/-- `AlreadyLoggedIn` from auth.go: `cookie = none` models a missing "SID"
cookie (return false untouched); otherwise look the value up in the store and,
when present, write back the same entry with `lastSeen = time.Now()`. -/
def AlreadyLoggedIn (st : SessionState) (cookie : Option String) (now : Int) :
    SessionState × Bool :=
  match cookie with
  | none => (st, false)
  | some t =>
    match st.store t with
    | none => (st, false)
    | some u =>
      ({ st with store := fun k => if k = t then some ⟨u.email, now⟩ else st.store k },
        true)

/-- `Logout` from auth.go restricted to its effect on the shared state:
`delete(s.store, c.Value)` under the lock.  Cookie deletion is client I/O and
the opportunistic `go s.Clean()` is a separate `Clean` invocation. -/
def Logout (st : SessionState) (token : String) : SessionState :=
  { st with store := fun k => if k = token then none else st.store k }

/-- The external collaborators `Login` consumes: the `users` row lookup by
email (`none` = `GetContext` returned an error, i.e. unknown email) giving the
stored password hash, and `bcrypt.CompareHashAndPassword` as a boolean. -/
structure LoginEnv where
  db : String → Option String
  verify : String → String → Bool

/-- The user-visible message returned by `Login` on a failed credential check,
identical for an unknown email and for a wrong password (auth.go lines 96–108). -/
def invalidCredentialsMsg : String := "invalid email or password"

/-- The user-visible throttle message of auth.go line 93, with the remaining
wait `d` formatted in. -/
def throttleMsg (d : Int) : String :=
  "please wait " ++ toString d ++ " before trying again"

/-- `Login` from auth.go as a state transition.  In order: the throttle gate
(returns before touching any state), the database lookup, the bcrypt check
(each failure calls `loginDelay`), and on success the store insert under `sID`
plus `delete(s.tries, email)` / `delete(s.delay, email)`.  Admin/JWT/cart
cookies are external outputs and are omitted; the session-map and throttle-map
mutations they follow are fully modelled. -/
def Login (env : LoginEnv) (st : SessionState) (email password sID : String)
    (now : Int) : SessionState × Except String Unit :=
  if checkAllowed st email now = false then
    (st, Except.error (throttleMsg ((st.delay email).getD 0 - now)))
  else
    match env.db email with
    | none => (loginDelay st email now, Except.error invalidCredentialsMsg)
    | some hash =>
      if env.verify hash password then
        ({ st with
            store := fun k => if k = sID then some ⟨email, now⟩ else st.store k,
            tries := fun e => if e = email then 0 else st.tries e,
            delay := fun e => if e = email then none else st.delay e },
          Except.ok ())
      else (loginDelay st email now, Except.error invalidCredentialsMsg)

/-! ## Cart aggregate

The `shopping` package itself is not among the source files; only its HTTP
handlers (`src/unnamed/part_001`) are.  The cart operations below are
modelled from the spec (§3, §4.3).  Monetary/physical quantities are exact
rationals, so the spec's "within floating-point tolerance" becomes equality. -/

/-- Modelled from the spec: the per-call unit values the cart trusts from the
caller (§6) — product identity plus unit weight/taxes/discount/subtotal/total.
The handler decodes these from the request body; the SQL schema gives the
field names. -/
structure Product where
  id : Nat
  brand : String
  category : String
  type : String
  weight : ℚ
  taxes : ℚ
  discount : ℚ
  subtotal : ℚ
  total : ℚ

/-- Modelled from the spec (§3 CartItem): one line item, scaled fields =
unit value × quantity. -/
structure CartItem where
  id : Nat
  quantity : ℚ
  weight : ℚ
  taxes : ℚ
  discount : ℚ
  subtotal : ℚ
  total : ℚ

/-- Modelled from the spec (§3 Cart): the item collection plus the cached
cart-level aggregates. -/
structure Cart where
  items : List CartItem
  counter : ℚ
  weight : ℚ
  discount : ℚ
  taxes : ℚ
  subtotal : ℚ
  total : ℚ

/-- Modelled from the spec (§7): the cart's recoverable error taxonomy used
by `add` and `remove`. -/
inductive CartError where
  | invalidQuantity
  | itemNotFound
deriving DecidableEq

/-- A CartItem with every scaled field equal to unit value × quantity (§4.3). -/
def scaleItem (p : Product) (q : ℚ) : CartItem :=
  { id := p.id, quantity := q, weight := p.weight * q, taxes := p.taxes * q,
    discount := p.discount * q, subtotal := p.subtotal * q, total := p.total * q }

/-- First item with the given product identity, if any. -/
def findItem : List CartItem → Nat → Option CartItem
  | [], _ => none
  | i :: rest, pid => if i.id = pid then some i else findItem rest pid

/-- Replace the first item with the given product identity. -/
def replaceItem : List CartItem → Nat → CartItem → List CartItem
  | [], _, _ => []
  | i :: rest, pid, ni => if i.id = pid then ni :: rest else i :: replaceItem rest pid ni

/-- Delete the first item with the given product identity. -/
def eraseItem : List CartItem → Nat → List CartItem
  | [], _ => []
  | i :: rest, pid => if i.id = pid then rest else i :: eraseItem rest pid

/-- Modelled from the spec (§4.3 `add`): non-zero quantity required
(`InvalidQuantityError` otherwise); an already-present product has its
quantity incremented and its scaled fields recomputed from the per-call unit
values, the cart aggregates absorbing the delta of this call; an absent
product becomes a fresh item and the aggregates grow by its full contribution
(the distinct-item counter grows by one — the open question of §9 does not
affect the summed aggregates). -/
def cartAdd (c : Cart) (p : Product) (q : ℚ) : Except CartError Cart :=
  if q = 0 then Except.error CartError.invalidQuantity
  else
    match findItem c.items p.id with
    | some i =>
      let ni := scaleItem p (i.quantity + q)
      Except.ok { c with
        items := replaceItem c.items p.id ni,
        weight := c.weight + (ni.weight - i.weight),
        taxes := c.taxes + (ni.taxes - i.taxes),
        discount := c.discount + (ni.discount - i.discount),
        subtotal := c.subtotal + (ni.subtotal - i.subtotal),
        total := c.total + (ni.total - i.total) }
    | none =>
      let ni := scaleItem p q
      Except.ok { c with
        items := ni :: c.items,
        counter := c.counter + 1,
        weight := c.weight + ni.weight,
        taxes := c.taxes + ni.taxes,
        discount := c.discount + ni.discount,
        subtotal := c.subtotal + ni.subtotal,
        total := c.total + ni.total }

/-- Modelled from the spec (§4.3 `remove`): `ItemNotFoundError` when absent;
otherwise the item's contribution is subtracted from every aggregate and the
entry deleted. -/
def cartRemove (c : Cart) (pid : Nat) : Except CartError Cart :=
  match findItem c.items pid with
  | none => Except.error CartError.itemNotFound
  | some i =>
    Except.ok { c with
      items := eraseItem c.items pid,
      counter := c.counter - 1,
      weight := c.weight - i.weight,
      taxes := c.taxes - i.taxes,
      discount := c.discount - i.discount,
      subtotal := c.subtotal - i.subtotal,
      total := c.total - i.total }

/-- A fresh cart (also the state after `reset()`): no items, all aggregates 0. -/
def emptyCart : Cart :=
  { items := [], counter := 0, weight := 0, discount := 0, taxes := 0,
    subtotal := 0, total := 0 }

/-- One `add`/`remove` of a claim-C1 operation sequence; a failed operation
leaves the cart unchanged. -/
inductive CartOp where
  | add (p : Product) (q : ℚ)
  | remove (pid : Nat)

/-- Apply one operation, keeping the old cart on error. -/
def runOp (c : Cart) : CartOp → Cart
  | CartOp.add p q =>
    match cartAdd c p q with
    | Except.ok c2 => c2
    | Except.error _ => c
  | CartOp.remove pid =>
    match cartRemove c pid with
    | Except.ok c2 => c2
    | Except.error _ => c

/-- Apply a sequence of operations from left to right. -/
def runOps (c : Cart) (ops : List CartOp) : Cart :=
  ops.foldl runOp c

/-- Sum of one field over the current items. -/
def sumItems (f : CartItem → ℚ) (items : List CartItem) : ℚ :=
  (items.map f).sum

/-- The §3 cart invariant: every cached cart-level aggregate equals the sum of
the corresponding field over the current items. -/
def cartInvariant (c : Cart) : Prop :=
  c.weight = sumItems (fun i => i.weight) c.items ∧
  c.taxes = sumItems (fun i => i.taxes) c.items ∧
  c.discount = sumItems (fun i => i.discount) c.items ∧
  c.subtotal = sumItems (fun i => i.subtotal) c.items ∧
  c.total = sumItems (fun i => i.total) c.items

/-- The `CartAdd` HTTP handler of `src/unnamed/part_001` (lines 16–44),
after body decoding and `strconv.Atoi` succeed: `quantity := float32(q)`;
a zero quantity is answered with the "Please insert a valid amount" error
without touching the cart, otherwise `cart.Add(&product, quantity)` runs and
the handler answers with the (possibly updated) cart. -/
def CartAdd (cart : Cart) (p : Product) (q : Int) : Cart × Option String :=
  if (q : ℚ) = 0 then (cart, some "Please insert a valid amount")
  else
    match cartAdd cart p (q : ℚ) with
    | Except.ok c2 => (c2, none)
    | Except.error _ => (cart, none)

/-! ## Lock discipline of auth.go

A static transliteration of which shared `session` fields each method of
auth.go touches, in source order, interleaved with its `s.Lock()` /
`s.Unlock()` calls.  `RLock` is never used by the source, so one lock event
suffices. -/

/-- The shared fields of `session` guarded (per the spec) by the mutex. -/
inductive SharedField where
  | storeF
  | triesF
  | delayF
  | cleanedF
deriving DecidableEq

/-- One step of a method body: acquire the mutex, release it, or touch a
shared field (read or write — either requires the lock per the spec). -/
inductive LockEv where
  | lock
  | unlock
  | acc (f : SharedField)
deriving DecidableEq

/-- `AlreadyLoggedIn` (auth.go lines 60–78): cookie read, `s.Lock()`,
store read, store write, `s.Unlock()` (deferred). -/
def alreadyLoggedInEvents : List LockEv :=
  [LockEv.lock, LockEv.acc SharedField.storeF, LockEv.acc SharedField.storeF,
   LockEv.unlock]

/-- `Clean` (auth.go lines 81–88): ranges over `s.store`, deletes from it,
writes `s.cleaned` — with no `s.Lock()` anywhere in the method. -/
def cleanEvents : List LockEv :=
  [LockEv.acc SharedField.storeF, LockEv.acc SharedField.storeF,
   LockEv.acc SharedField.cleanedF]

/-- `Login`'s throttled path (auth.go lines 92–94): `s.delay[email]` is read
twice in the guard, before any `s.Lock()`. -/
def loginThrottleCheckEvents : List LockEv :=
  [LockEv.acc SharedField.delayF, LockEv.acc SharedField.delayF]

/-- `loginDelay` (auth.go lines 161–169): `s.Lock()`, tries append, tries
length read, delay write, `s.Unlock()` (deferred). -/
def loginDelayEvents : List LockEv :=
  [LockEv.lock, LockEv.acc SharedField.triesF, LockEv.acc SharedField.triesF,
   LockEv.acc SharedField.delayF, LockEv.unlock]

/-- `Logout` (auth.go lines 141–158): cookie deletions, then `s.Lock()`,
store delete, `s.Unlock()`, then the read of `s.cleaned` in the sweep-trigger
guard — after the lock has been released. -/
def logoutEvents : List LockEv :=
  [LockEv.lock, LockEv.acc SharedField.storeF, LockEv.unlock,
   LockEv.acc SharedField.cleanedF]

/-- Every shared-field access in the trace happens while the lock depth is
positive. -/
def accessesLocked : List LockEv → Nat → Bool
  | [], _ => true
  | LockEv.lock :: rest, d => accessesLocked rest (d + 1)
  | LockEv.unlock :: rest, d => accessesLocked rest (d - 1)
  | LockEv.acc _ :: rest, d => decide (0 < d) && accessesLocked rest d

/-- The spec's §5 discipline for one registry operation: it holds the
exclusive lock across every access to the shared maps. -/
def holdsLockThroughout (trace : List LockEv) : Bool :=
  accessesLocked trace 0

/-! ## Theorems -/

/-- Claim C3: the expiry sweep removes exactly the entries whose
last-activity is older than `now - maxIdle` — an entry survives the sweep
with value `u` iff it was present with that same value (same identity, same
last-activity) and `now - u.lastSeen ≤ maxIdle` — and `Clean` is the sweep at
the reference limit of 120 hours. -/
theorem C3_sweep_exact (st : SessionState) (now maxIdle : Int) (k : String)
    (u : UserData) :
    ((sweepExpired st now maxIdle).store k = some u ↔
      st.store k = some u ∧ now - u.lastSeen ≤ maxIdle) ∧
    Clean st now = sweepExpired st now (120 * 3600) := by
  refine ⟨?_, rfl⟩
  show (match st.store k with
        | none => none
        | some u => if now - u.lastSeen > maxIdle then none else some u) = some u ↔ _
  cases h : st.store k with
  | none => simp [h]
  | some v =>
    show (if now - v.lastSeen > maxIdle then none else some v) = some u ↔ _
    split_ifs with hgt
    · simp only [reduceCtorEq, false_iff, not_and]
      rintro hv
      cases hv
      omega
    · constructor
      · intro hv
        refine ⟨hv, ?_⟩
        cases hv
        omega
      · exact fun hv => hv.1

/-- Claim C5: `AlreadyLoggedIn` with a cookie value returns true iff the
token is present in the store; when present it rewrites that entry to the
same identity with `lastSeen = now` and leaves every other entry unchanged;
when absent it returns false with the state unchanged. -/
theorem C5_isActive_refresh (st : SessionState) (t : String) (now : Int) :
    ((AlreadyLoggedIn st (some t) now).2 = true ↔ (st.store t).isSome = true) ∧
    (∀ u, st.store t = some u →
      (AlreadyLoggedIn st (some t) now).1.store t = some ⟨u.email, now⟩ ∧
      ∀ k, k ≠ t → (AlreadyLoggedIn st (some t) now).1.store k = st.store k) ∧
    (st.store t = none → AlreadyLoggedIn st (some t) now = (st, false)) := by
  refine ⟨?_, ?_, ?_⟩
  · cases h : st.store t with
    | none => simp [AlreadyLoggedIn, h]
    | some u => simp [AlreadyLoggedIn, h]
  · intro u hu
    refine ⟨?_, ?_⟩
    · simp [AlreadyLoggedIn, hu]
    · intro k hk
      simp [AlreadyLoggedIn, hu, hk]
  · intro h
    simp [AlreadyLoggedIn, h]

/-- A concrete session store with one entry, for witnesses. -/
def stOne : SessionState :=
  { newSession with
    store := fun k => if k = "tok" then some ⟨"a@x.com", 5⟩ else none }

/-- Witness for C5 at a concrete store: the stored token is seen as active
and its last-activity is refreshed to the current time, while another key
stays untouched. -/
theorem C5_isActive_refresh_witness :
    (AlreadyLoggedIn stOne (some "tok") 9).1.store "tok" = some ⟨"a@x.com", 9⟩ ∧
    (AlreadyLoggedIn stOne (some "tok") 9).1.store "other" = stOne.store "other" := by
  refine ⟨((C5_isActive_refresh stOne "tok" 9).2.1 ⟨"a@x.com", 5⟩ rfl).1, ?_⟩
  exact ((C5_isActive_refresh stOne "tok" 9).2.1 ⟨"a@x.com", 5⟩ rfl).2 "other" (by decide)

/-- Claim C6: `Logout` (destroy) leaves no entry for the token; it is
idempotent as a whole-state transformation; and destroying an absent token
changes no entry of the store. -/
theorem C6_destroy_idempotent (st : SessionState) (t : String) :
    (Logout st t).store t = none ∧
    Logout (Logout st t) t = Logout st t ∧
    (st.store t = none → ∀ k, (Logout st t).store k = st.store k) := by
  refine ⟨by simp [Logout], ?_, ?_⟩
  · unfold Logout
    simp only [SessionState.mk.injEq]
    constructor
    · funext k
      by_cases hk : k = t <;> simp [hk]
    · simp
  · intro h k
    by_cases hk : k = t
    · subst hk
      simp [Logout, h]
    · simp [Logout, hk]

/-- Witness for C6 at a concrete store: destroying a token not present
leaves an arbitrary key unchanged. -/
theorem C6_destroy_idempotent_witness :
    (Logout stOne "gone").store "tok" = stOne.store "tok" := by
  exact (C6_destroy_idempotent stOne "gone").2.2 rfl "tok"

/-- `loginDelay` bumps the failure count of the identity by one. -/
theorem loginDelay_tries (st : SessionState) (email : String) (now : Int) :
    (loginDelay st email now).tries email = st.tries email + 1 := by
  simp [loginDelay]

/-- `loginDelay` sets the deadline to now + unit × new failure count. -/
theorem loginDelay_delay (st : SessionState) (email : String) (now : Int) :
    (loginDelay st email now).delay email
      = some (now + unitDelay * ((st.tries email : Int) + 1)) := by
  simp [loginDelay]

/-- After failures at the times `ts` (the last being `last`), the stored
deadline is `last + unitDelay × (previous count + number of failures)`. -/
theorem recordFailures_deadline (email : String) :
    ∀ (ts : List Int) (s : SessionState) (last : Int), ts.getLast? = some last →
      (recordFailures s email ts).delay email
        = some (last + unitDelay * ((s.tries email : Int) + (ts.length : Int))) := by
  intro ts
  induction ts with
  | nil => intro s last h; simp at h
  | cons t rest ih =>
    intro s last h
    cases rest with
    | nil =>
      simp at h
      subst h
      show (loginDelay s email t).delay email = _
      rw [loginDelay_delay]
      norm_num
    | cons r rs =>
      rw [List.getLast?_cons_cons] at h
      show (recordFailures (loginDelay s email t) email (r :: rs)).delay email = _
      rw [ih (loginDelay s email t) last h]
      congr 2
      rw [loginDelay_tries]
      simp only [List.length_cons]
      push_cast
      ring

/-- Claim C2: with zero recorded failures the throttle gate always allows the
attempt, and after `n` consecutive failures (no intervening reset) at the
times `ts`, the gate allows an attempt at `now` exactly when
`n × unitDelay` has elapsed since the last failure. -/
theorem C2_throttle_backoff (email : String) (ts : List Int) (last now : Int)
    (h : ts.getLast? = some last) :
    checkAllowed newSession email now = true ∧
    (checkAllowed (recordFailures newSession email ts) email now = true ↔
      last + unitDelay * (ts.length : Int) ≤ now) := by
  refine ⟨rfl, ?_⟩
  have hd := recordFailures_deadline email ts newSession last h
  unfold checkAllowed
  rw [hd]
  have h0 : ((newSession.tries email : Int)) = 0 := rfl
  rw [h0]
  simp only [zero_add, decide_eq_true_eq]
  omega

/-- Witness for C2: two failures at times 0 and 5 block a retry until
5 + 2·2 = 9; the fresh state allows the attempt outright. -/
theorem C2_throttle_backoff_witness :
    checkAllowed newSession "a@x.com" 9 = true ∧
    (checkAllowed (recordFailures newSession "a@x.com" [0, 5]) "a@x.com" 9 = true ↔
      5 + unitDelay * ((([0, 5] : List Int).length : Nat) : Int) ≤ 9) :=
  C2_throttle_backoff "a@x.com" [0, 5] 5 9 rfl

/-- Claim C4: a successful login (gate passed, known email, matching
password) answers `ok`, removes the identity's failure count and backoff
deadline entirely, and an immediately following gate check at any time `t`
succeeds. -/
theorem C4_login_reset (env : LoginEnv) (st : SessionState)
    (email password sID : String) (now t : Int) (hash : String)
    (hallow : checkAllowed st email now = true)
    (hdb : env.db email = some hash)
    (hpw : env.verify hash password = true) :
    (Login env st email password sID now).2 = Except.ok () ∧
    (Login env st email password sID now).1.tries email = 0 ∧
    (Login env st email password sID now).1.delay email = none ∧
    checkAllowed (Login env st email password sID now).1 email t = true := by
  have hL : Login env st email password sID now =
      ({ st with
          store := fun k => if k = sID then some ⟨email, now⟩ else st.store k,
          tries := fun e => if e = email then 0 else st.tries e,
          delay := fun e => if e = email then none else st.delay e },
        Except.ok ()) := by
    unfold Login
    rw [hallow, hdb]
    simp [hpw]
  rw [hL]
  exact ⟨rfl, by simp, by simp, by simp [checkAllowed]⟩

/-- A concrete credential store: one known email with stored hash "h",
verification being plain comparison. -/
def envOne : LoginEnv :=
  { db := fun e => if e = "a@x.com" then some "h" else none,
    verify := fun stored candidate => stored == candidate }

/-- Witness for C4: logging in with the right password on a fresh state. -/
theorem C4_login_reset_witness :
    (Login envOne newSession "a@x.com" "h" "sid" 7).2 = Except.ok () ∧
    (Login envOne newSession "a@x.com" "h" "sid" 7).1.tries "a@x.com" = 0 ∧
    (Login envOne newSession "a@x.com" "h" "sid" 7).1.delay "a@x.com" = none ∧
    checkAllowed (Login envOne newSession "a@x.com" "h" "sid" 7).1 "a@x.com" 8 = true :=
  C4_login_reset envOne newSession "a@x.com" "h" "sid" 7 8 "h" rfl rfl rfl

/-- Claim C7: an unknown email and a known email with a wrong password yield
errors with the identical user-visible message, so the two failure causes are
indistinguishable from the returned result. -/
theorem C7_no_enumeration (env : LoginEnv) (st1 st2 : SessionState)
    (e1 p1 s1 e2 p2 s2 : String) (n1 n2 : Int) (hash : String)
    (ha1 : checkAllowed st1 e1 n1 = true)
    (ha2 : checkAllowed st2 e2 n2 = true)
    (hunknown : env.db e1 = none)
    (hknown : env.db e2 = some hash)
    (hwrong : env.verify hash p2 = false) :
    (Login env st1 e1 p1 s1 n1).2 = Except.error invalidCredentialsMsg ∧
    (Login env st2 e2 p2 s2 n2).2 = Except.error invalidCredentialsMsg := by
  constructor
  · unfold Login
    rw [ha1, hunknown]
    simp
  · unfold Login
    rw [ha2, hknown]
    simp [hwrong]

/-- Witness for C7: "nobody@x.com" is unknown, "a@x.com" exists but the
password is wrong; both attempts get the same error value. -/
theorem C7_no_enumeration_witness :
    (Login envOne newSession "nobody@x.com" "p" "s1" 3).2
      = Except.error invalidCredentialsMsg ∧
    (Login envOne newSession "a@x.com" "wrong" "s2" 3).2
      = Except.error invalidCredentialsMsg :=
  C7_no_enumeration envOne newSession newSession "nobody@x.com" "p" "s1"
    "a@x.com" "wrong" "s2" 3 3 "h" rfl rfl (by decide) (by decide) (by decide)

/-- Claim C10: when the stored backoff deadline is strictly in the future,
`Login` answers the throttle error and returns the state exactly unchanged —
no session entry, no failure count, no deadline, of any identity, moves. -/
theorem C10_throttled_unchanged (env : LoginEnv) (st : SessionState)
    (email password sID : String) (now d : Int)
    (hd : st.delay email = some d) (hfut : 0 < d - now) :
    Login env st email password sID now =
      (st, Except.error (throttleMsg (d - now))) := by
  have hc : checkAllowed st email now = false := by
    unfold checkAllowed
    rw [hd]
    simp only [decide_eq_false_iff_not]
    omega
  unfold Login
  rw [hc, hd]
  simp

/-- A state with one future backoff deadline recorded, for witnesses. -/
def stDelayed : SessionState :=
  { newSession with delay := fun e => if e = "a@x.com" then some 10 else none }

/-- Witness for C10: at time 7, a deadline of 10 makes `Login` return the
throttle error with the state untouched. -/
theorem C10_throttled_unchanged_witness :
    Login envOne stDelayed "a@x.com" "h" "sid" 7 =
      (stDelayed, Except.error (throttleMsg (10 - 7))) :=
  C10_throttled_unchanged envOne stDelayed "a@x.com" "h" "sid" 7 10 (by decide)
    (by decide)

/-- Claim C9, settled against the source's lock usage: `Clean` (the sweep)
touches the shared store and `cleaned` stamp with no lock held, and `Login`
reads the shared delay map before locking — while `AlreadyLoggedIn` and
`loginDelay` do keep every shared access under the mutex.  (Nothing in the
source bounds concurrent `Clean` goroutines to one in flight either; each
`Logout` more than 30s after the previous completed sweep spawns one.) -/
theorem C9_sweep_runs_unlocked :
    holdsLockThroughout cleanEvents = false ∧
    holdsLockThroughout loginThrottleCheckEvents = false ∧
    holdsLockThroughout logoutEvents = false ∧
    holdsLockThroughout alreadyLoggedInEvents = true ∧
    holdsLockThroughout loginDelayEvents = true := by
  decide

/-- Summing a field over a cons. -/
theorem sumItems_cons (f : CartItem → ℚ) (i : CartItem) (l : List CartItem) :
    sumItems f (i :: l) = f i + sumItems f l := by
  simp [sumItems]

/-- Replacing the first item with a given id changes the field sum by exactly
the delta between the new and the old item. -/
theorem sumItems_replace (f : CartItem → ℚ) :
    ∀ (items : List CartItem) (pid : Nat) (i ni : CartItem),
      findItem items pid = some i →
      sumItems f (replaceItem items pid ni) = sumItems f items + (f ni - f i) := by
  intro items
  induction items with
  | nil => intro pid i ni h; simp [findItem] at h
  | cons j rest ih =>
    intro pid i ni h
    by_cases hj : j.id = pid
    · simp only [findItem, if_pos hj] at h
      cases h
      unfold replaceItem
      rw [if_pos hj, sumItems_cons, sumItems_cons]
      ring
    · simp only [findItem, if_neg hj] at h
      unfold replaceItem
      rw [if_neg hj, sumItems_cons, sumItems_cons, ih pid i ni h]
      ring

/-- Deleting the first item with a given id removes exactly its field value
from the sum. -/
theorem sumItems_erase (f : CartItem → ℚ) :
    ∀ (items : List CartItem) (pid : Nat) (i : CartItem),
      findItem items pid = some i →
      sumItems f (eraseItem items pid) = sumItems f items - f i := by
  intro items
  induction items with
  | nil => intro pid i h; simp [findItem] at h
  | cons j rest ih =>
    intro pid i h
    by_cases hj : j.id = pid
    · simp only [findItem, if_pos hj] at h
      cases h
      unfold eraseItem
      rw [if_pos hj, sumItems_cons]
      ring
    · simp only [findItem, if_neg hj] at h
      unfold eraseItem
      rw [if_neg hj, sumItems_cons, sumItems_cons, ih pid i h]
      ring

/-- What a successful `add` of an already-present product produces. -/
theorem cartAdd_ok_present (c : Cart) (p : Product) (q : ℚ) (i : CartItem)
    (hq : ¬q = 0) (hfind : findItem c.items p.id = some i) :
    cartAdd c p q = Except.ok { c with
      items := replaceItem c.items p.id (scaleItem p (i.quantity + q)),
      weight := c.weight + ((scaleItem p (i.quantity + q)).weight - i.weight),
      taxes := c.taxes + ((scaleItem p (i.quantity + q)).taxes - i.taxes),
      discount := c.discount + ((scaleItem p (i.quantity + q)).discount - i.discount),
      subtotal := c.subtotal + ((scaleItem p (i.quantity + q)).subtotal - i.subtotal),
      total := c.total + ((scaleItem p (i.quantity + q)).total - i.total) } := by
  unfold cartAdd
  rw [if_neg hq, hfind]

/-- What a successful `add` of an absent product produces. -/
theorem cartAdd_ok_absent (c : Cart) (p : Product) (q : ℚ)
    (hq : ¬q = 0) (hfind : findItem c.items p.id = none) :
    cartAdd c p q = Except.ok { c with
      items := scaleItem p q :: c.items,
      counter := c.counter + 1,
      weight := c.weight + (scaleItem p q).weight,
      taxes := c.taxes + (scaleItem p q).taxes,
      discount := c.discount + (scaleItem p q).discount,
      subtotal := c.subtotal + (scaleItem p q).subtotal,
      total := c.total + (scaleItem p q).total } := by
  unfold cartAdd
  rw [if_neg hq, hfind]

/-- A successful `add` preserves the aggregate invariant. -/
theorem cartAdd_invariant (c : Cart) (p : Product) (q : ℚ) (c2 : Cart)
    (h : cartAdd c p q = Except.ok c2) (hinv : cartInvariant c) :
    cartInvariant c2 := by
  obtain ⟨h1, h2, h3, h4, h5⟩ := hinv
  by_cases hq : q = 0
  · rw [cartAdd, if_pos hq] at h
    simp at h
  · cases hfind : findItem c.items p.id with
    | some i =>
      rw [cartAdd_ok_present c p q i hq hfind] at h
      simp only [Except.ok.injEq] at h
      subst h
      refine ⟨?_, ?_, ?_, ?_, ?_⟩
      · rw [sumItems_replace _ c.items p.id i _ hfind, ← h1]
      · rw [sumItems_replace _ c.items p.id i _ hfind, ← h2]
      · rw [sumItems_replace _ c.items p.id i _ hfind, ← h3]
      · rw [sumItems_replace _ c.items p.id i _ hfind, ← h4]
      · rw [sumItems_replace _ c.items p.id i _ hfind, ← h5]
    | none =>
      rw [cartAdd_ok_absent c p q hq hfind] at h
      simp only [Except.ok.injEq] at h
      subst h
      refine ⟨?_, ?_, ?_, ?_, ?_⟩
      · rw [sumItems_cons, ← h1]; ring
      · rw [sumItems_cons, ← h2]; ring
      · rw [sumItems_cons, ← h3]; ring
      · rw [sumItems_cons, ← h4]; ring
      · rw [sumItems_cons, ← h5]; ring

/-- A successful `remove` preserves the aggregate invariant. -/
theorem cartRemove_invariant (c : Cart) (pid : Nat) (c2 : Cart)
    (h : cartRemove c pid = Except.ok c2) (hinv : cartInvariant c) :
    cartInvariant c2 := by
  obtain ⟨h1, h2, h3, h4, h5⟩ := hinv
  cases hfind : findItem c.items pid with
  | none => rw [cartRemove, hfind] at h; simp at h
  | some i =>
    rw [cartRemove, hfind] at h
    simp only [Except.ok.injEq] at h
    subst h
    refine ⟨?_, ?_, ?_, ?_, ?_⟩
    · rw [sumItems_erase _ c.items pid i hfind, ← h1]
    · rw [sumItems_erase _ c.items pid i hfind, ← h2]
    · rw [sumItems_erase _ c.items pid i hfind, ← h3]
    · rw [sumItems_erase _ c.items pid i hfind, ← h4]
    · rw [sumItems_erase _ c.items pid i hfind, ← h5]

/-- One operation (failed or successful) preserves the aggregate invariant. -/
theorem runOp_invariant (c : Cart) (op : CartOp) (h : cartInvariant c) :
    cartInvariant (runOp c op) := by
  cases op with
  | add p q =>
    show cartInvariant (match cartAdd c p q with
      | Except.ok c2 => c2
      | Except.error _ => c)
    cases hr : cartAdd c p q with
    | ok c2 => exact cartAdd_invariant c p q c2 hr h
    | error e => exact h
  | remove pid =>
    show cartInvariant (match cartRemove c pid with
      | Except.ok c2 => c2
      | Except.error _ => c)
    cases hr : cartRemove c pid with
    | ok c2 => exact cartRemove_invariant c pid c2 hr h
    | error e => exact h

/-- Running any operation sequence preserves the aggregate invariant. -/
theorem runOps_invariant :
    ∀ (ops : List CartOp) (c : Cart), cartInvariant c → cartInvariant (runOps c ops)
  | [], _, h => h
  | op :: rest, c, h => runOps_invariant rest (runOp c op) (runOp_invariant c op h)

/-- Claim C1: after any finite sequence of `add`/`remove` operations on a
fresh cart, every cart-level aggregate (subtotal, taxes, discount, weight,
total) equals the sum of the corresponding field over the current items —
exactly, since quantities are rationals here.  Every prefix of a sequence is
itself a sequence, so this holds after each operation. -/
theorem C1_cart_aggregates (ops : List CartOp) :
    cartInvariant (runOps emptyCart ops) :=
  runOps_invariant ops emptyCart ⟨rfl, rfl, rfl, rfl, rfl⟩

/-- Claim C8: the `CartAdd` handler rejects a zero quantity with the
"Please insert a valid amount" error and an unchanged cart, while any
non-zero quantity passes the precondition check and the add proceeds
(the handler's answer carries no error and is the successful `add` result). -/
theorem C8_quantity_check (cart : Cart) (p : Product) (q : Int) :
    (q = 0 → CartAdd cart p q = (cart, some "Please insert a valid amount")) ∧
    (q ≠ 0 → (CartAdd cart p q).2 = none ∧
      cartAdd cart p (q : ℚ) = Except.ok (CartAdd cart p q).1) := by
  constructor
  · intro h
    subst h
    simp [CartAdd]
  · intro h
    have hq : ((q : ℚ)) ≠ 0 := Int.cast_ne_zero.mpr h
    have hok : ∃ c2, cartAdd cart p (q : ℚ) = Except.ok c2 := by
      unfold cartAdd
      rw [if_neg hq]
      cases findItem cart.items p.id <;> exact ⟨_, rfl⟩
    obtain ⟨c2, hc2⟩ := hok
    unfold CartAdd
    rw [if_neg hq, hc2]
    exact ⟨rfl, rfl⟩

/-- A concrete product for witnesses: the §8 scenario product
(unit weight 2.0, unit total 10.0). -/
def pOne : Product :=
  { id := 1, brand := "b", category := "c", type := "t",
    weight := 2, taxes := 0, discount := 0, subtotal := 10, total := 10 }

/-- Witness for C8: quantity 0 is rejected with the cart untouched, and
quantity 3 passes the check with the add going through. -/
theorem C8_quantity_check_witness :
    CartAdd emptyCart pOne 0 = (emptyCart, some "Please insert a valid amount") ∧
    ((CartAdd emptyCart pOne 3).2 = none ∧
      cartAdd emptyCart pOne ((3 : Int) : ℚ) = Except.ok (CartAdd emptyCart pOne 3).1) :=
  ⟨(C8_quantity_check emptyCart pOne 0).1 rfl,
    (C8_quantity_check emptyCart pOne 3).2 (by decide)⟩

end Palo
